import Mathlib

/-!
Verification development for the Market Price Forecasting Engine of the
naariudyami backend (src/services/ai-enhanced/price-predictor).

The two source files embedded here are `government-scraper.ts` and
`forecasting-model.ts`.  JavaScript numbers are modelled as real numbers;
`Math.round` is `fun x => ⌊x + 1/2⌋` (JS rounds half-way cases toward +∞);
the one place where JavaScript division by zero matters (the
`changePercent` computation) is modelled with an explicit IEEE-style value
type `JsNum` carrying `Infinity`/`NaN`, because Lean's `x / 0 = 0`
convention would silently diverge from the source there.  Calendar dates
are modelled as integers counting days (the source only ever shifts
`new Date()` by whole days and serialises to a date string, an injective
image of that day count).  `Math.random()` is modelled as an ambient
stream `rng : ℤ → ℝ` indexed by the loop counter of the call site, and
`Math.sin` / `Math.PI` as `Real.sin` / `Real.pi`.  The external fetch and
configuration are an explicit environment, and the module-level cache of
`GovernmentPriceScraper` is threaded as explicit state.
-/

noncomputable section

/-- JavaScript `Math.round`: `⌊x + 0.5⌋` (half-way cases go toward plus
infinity, e.g. `Math.round(-2.5) = -2`). -/
def jsRound (x : ℝ) : ℝ := ((⌊x + 1/2⌋ : ℤ) : ℝ)

/-- A JavaScript number that may be an infinity or `NaN`; only the
`changePercent` / `forecastChange` computations can actually produce the
non-finite values (via division by zero). -/
inductive JsNum where
  | finite (x : ℝ)
  | posInf
  | negInf
  | nan
deriving Inhabited

open Classical in
/-- JavaScript division `x / y`, total on the finite reals: division by
zero yields a signed infinity (or `NaN` for `0 / 0`). -/
def jsDiv (x y : ℝ) : JsNum :=
  if y = 0 then (if 0 < x then .posInf else if x < 0 then .negInf else .nan)
  else .finite (x / y)

/-- Multiplication of a possibly non-finite value by the positive literal
`100` (as in `((a - b) / b) * 100`). -/
def JsNum.mul100 : JsNum → JsNum
  | .finite x => .finite (x * 100)
  | .posInf => .posInf
  | .negInf => .negInf
  | .nan => .nan

/-- `Math.round(x * 100) / 100` lifted to `JsNum` (`Math.round` fixes the
infinities and `NaN`). -/
def JsNum.round100 : JsNum → JsNum
  | .finite x => .finite (jsRound (x * 100) / 100)
  | .posInf => .posInf
  | .negInf => .negInf
  | .nan => .nan

/-- The JavaScript comparison `a > q` for a possibly non-finite `a` and a
finite `q` (`NaN` compares false). -/
def JsNum.gt : JsNum → ℝ → Prop
  | .finite x, q => q < x
  | .posInf, _ => True
  | .negInf, _ => False
  | .nan, _ => False

/-- The JavaScript comparison `a < q` for a possibly non-finite `a` and a
finite `q` (`NaN` compares false). -/
def JsNum.lt : JsNum → ℝ → Prop
  | .finite x, q => x < q
  | .posInf, _ => False
  | .negInf, _ => True
  | .nan, _ => False

/-- The percent-change formula `((r - o) / o) * 100` shared by
`fetchPriceHistory`, `generateMockHistory` and `generateInsights`. -/
def pctChange (r o : ℝ) : JsNum := (jsDiv (r - o) o).mul100

/-- The trend label type of `PriceHistory.trend`. -/
inductive Trend where
  | up
  | down
  | stable
deriving DecidableEq, Inhabited

open Classical in
/-- The net effect of `let trend = 'stable'; if (cp > 5) trend = 'up';
if (cp < -5) trend = 'down';` in `fetchPriceHistory`. -/
def trendOf (cp : JsNum) : Trend :=
  if cp.lt (-5) then .down else if cp.gt 5 then .up else .stable

open Classical in
/-- The ternary `cp > 5 ? 'up' : cp < -5 ? 'down' : 'stable'` used in
`generateMockHistory`. -/
def trendOfMock (cp : JsNum) : Trend :=
  if cp.gt 5 then .up else if cp.lt (-5) then .down else .stable

/-- The loop index list of `for (let i = 1; i <= h; i++)` (empty when the
bound is non-positive). -/
def intRange1 (h : ℤ) : List ℤ := (List.range h.toNat).map (fun k : ℕ => (k : ℤ) + 1)

/-- The loop index list of `for (let i = days; i >= 0; i--)` (empty when
`days` is negative). -/
def intRangeDown (d : ℤ) : List ℤ :=
  if d < 0 then [] else (List.range (d.toNat + 1)).map (fun k : ℕ => d - (k : ℤ))

/-- JavaScript `l.slice(-7)`: the last seven elements (all of them when the
list is shorter). -/
def jsSliceLast7 {α : Type} (l : List α) : List α := l.drop (l.length - 7)

/-- JavaScript `l.slice(-days)` for an arbitrary (possibly non-positive)
integer `days`: a negative start index counts from the end clamped at 0,
and `slice(-0) = slice(0)` returns the whole array. -/
def jsSliceNegArg {α : Type} (l : List α) (days : ℤ) : List α :=
  if 0 < days then l.drop (l.length - days.toNat) else l.drop (-days).toNat

/- ----------------------------------------------------------------------
   government-scraper.ts : data model
   ---------------------------------------------------------------------- -/

/-- JavaScript `String.prototype.toLowerCase`, written as a character map
so that it evaluates on the ASCII category literals of the lookup
tables. -/
def jsToLower (s : String) : String := String.mk (s.data.map Char.toLower)

/-- `PriceData` of government-scraper.ts. -/
structure PriceData where
  commodity : String
  category : String
  minPrice : ℝ
  maxPrice : ℝ
  modalPrice : ℝ
  date : ℤ
  market : String
  source : String

/-- `PriceHistory` of government-scraper.ts.  `changePercent` is a `JsNum`
because the source computes it by a division that can be by zero. -/
structure PriceHistory where
  dates : List ℤ
  prices : List ℝ
  trend : Trend
  changePercent : JsNum

/-- One record of the upstream AGMARKNET JSON payload, as consumed by
`parseAGMARKNETResponse`.  A missing (or unparseable, for the numeric
fields run through `parseFloat(...) || 0`) field is `none`. -/
structure RawRecord where
  commodity : Option String
  minPrice : Option ℝ
  maxPrice : Option ℝ
  modalPrice : Option ℝ
  date : Option ℤ
  market : Option String

/-- The behaviour of the single outbound `fetch` call: a network error
(rejected promise), a non-ok response (which the source turns into a
thrown error), or an ok response with a list of records. -/
inductive FetchOutcome where
  | networkError
  | httpError
  | ok (records : List RawRecord)

/-- The ambient environment of one scraper/forecast call: the AGMARKNET
configuration from ai-config, the behaviour of the external source, and
the current calendar day and month of `new Date()`. -/
structure Env where
  agmarknetEnabled : Bool
  apiKey : Option String
  fetch : FetchOutcome
  today : ℤ
  month : ℕ

/-- The scraper's in-memory cache: key to (payload, insertion time in
milliseconds). -/
def Cache : Type := String → Option (List PriceData × ℤ)

/-- A fresh cache with no entries. -/
def emptyCache : Cache := fun _ => none

/-- The cache key `agmarknet:${category}` used by `fetchAGMARKNETPrices`. -/
def cacheKey (category : String) : String := "agmarknet:" ++ category

/-- `cacheExpiry = 3600000` (one hour in milliseconds). -/
def cacheExpiry : ℤ := 3600000

/-- `getFromCache` of government-scraper.ts. -/
def getFromCache (c : Cache) (key : String) (now : ℤ) : Option (List PriceData) :=
  match c key with
  | some (data, ts) => if now - ts < cacheExpiry then some data else none
  | none => none

/-- `saveToCache` of government-scraper.ts. -/
def saveToCache (c : Cache) (key : String) (data : List PriceData) (now : ℤ) : Cache :=
  fun k => if k = key then some (data, now) else c k

/-- `parseAGMARKNETResponse` of government-scraper.ts: each record maps to
a `PriceData` with `|| 0` defaults for the numeric fields and the current
date as default `Price_Date`. -/
def parseAGMARKNETResponse (env : Env) (records : List RawRecord) (category : String) :
    List PriceData :=
  records.map fun r =>
    { commodity := r.commodity.getD "Unknown"
      category := category
      minPrice := r.minPrice.getD 0
      maxPrice := r.maxPrice.getD 0
      modalPrice := r.modalPrice.getD 0
      date := r.date.getD env.today
      market := r.market.getD "Various Markets"
      source := "AGMARKNET" }

/-- The base-price lookup table of `getFallbackPrices` (seven entries). -/
def basePricesScraper (category : String) : ℝ :=
  match jsToLower category with
  | "textiles" => 2000
  | "spices" => 150
  | "handicrafts" => 500
  | "food products" => 100
  | "pottery" => 300
  | "jewelry" => 1500
  | "home decor" => 800
  | _ => 500

/-- `getFallbackPrices` of government-scraper.ts: 30 synthetic
observations, `i` days before today for `i = 0 .. 29`. -/
def getFallbackPrices (env : Env) (rng : ℤ → ℝ) (category : String) : List PriceData :=
  let basePrice := basePricesScraper category
  (List.range 30).map fun (i : ℕ) =>
    let variation := (rng i - 0.5) * 0.2
    let seasonality := Real.sin ((i : ℝ) / 30 * Real.pi) * 0.1
    let trend := (i : ℝ) * 0.002
    let modalPrice := jsRound (basePrice * (1 + variation + seasonality + trend))
    { commodity := category
      category := category
      minPrice := jsRound (modalPrice * 0.9)
      maxPrice := jsRound (modalPrice * 1.1)
      modalPrice := modalPrice
      date := env.today - (i : ℤ)
      market := "Multiple Markets"
      source := "Simulated Data" }

/-- Stable insertion of one observation into a date-sorted list, placing it
after every element whose date is not larger (models the stable
`Array.prototype.sort` comparator `(a, b) => date(a) - date(b)`). -/
def insertByDate (x : PriceData) : List PriceData → List PriceData
  | [] => [x]
  | y :: ys => if y.date ≤ x.date then y :: insertByDate x ys else x :: y :: ys

/-- `prices.sort((a, b) => new Date(a.date).getTime() - new Date(b.date).getTime())`. -/
def sortByDate (l : List PriceData) : List PriceData :=
  l.foldl (fun acc x => insertByDate x acc) []

/-- The `recentAvg` / `oldAvg` / `changePercent` computation of
`fetchPriceHistory` lines 101-103: both window sums are divided by the
constant 7 regardless of how many values the window actually holds. -/
def historyChangePercent (priceValues : List ℝ) : JsNum :=
  let recentAvg := (jsSliceLast7 priceValues).sum / 7
  let oldAvg := (priceValues.take 7).sum / 7
  pctChange recentAvg oldAvg

/-- Modelled from the spec (§3, the C6 refinement reference): the same
window comparison but with each window mean taken over the number of
values actually present in the window. -/
def historyChangePercentSpec (priceValues : List ℝ) : JsNum :=
  let recentWindow := jsSliceLast7 priceValues
  let oldWindow := priceValues.take 7
  pctChange (recentWindow.sum / recentWindow.length) (oldWindow.sum / oldWindow.length)

/-- The non-fallback body of `fetchPriceHistory` (lines 92-114): sort the
observations by date, keep the last `days`, extract the series and label
its trend. -/
def buildHistory (prices : List PriceData) (days : ℤ) : PriceHistory :=
  let sortedPrices := jsSliceNegArg (sortByDate prices) days
  let dates := sortedPrices.map (·.date)
  let priceValues := sortedPrices.map (·.modalPrice)
  let changePercent := historyChangePercent priceValues
  { dates := dates
    prices := priceValues
    trend := trendOf changePercent
    changePercent := changePercent.round100 }

/-- The base-price lookup table shared (textually) by `generateMockHistory`
and `fallbackForecast` (five entries). -/
def basePricesMock (category : String) : ℝ :=
  match jsToLower category with
  | "textiles" => 2000
  | "spices" => 150
  | "handicrafts" => 500
  | "food products" => 100
  | "pottery" => 300
  | _ => 500

/-- `generateMockHistory` of government-scraper.ts: the loop runs from
`i = days` down to `i = 0` inclusive, producing `days + 1` points ending
today. -/
def generateMockHistory (env : Env) (rng : ℤ → ℝ) (category : String) (days : ℤ) :
    PriceHistory :=
  let basePrice := basePricesMock category
  let idxs := intRangeDown days
  let dates := idxs.map (fun i => env.today - i)
  let prices := idxs.map fun i =>
    let variation := (rng i - 0.5) * 0.15
    let seasonality := Real.sin ((i : ℝ) / 30 * Real.pi) * 0.08
    let trend := (i : ℝ) * 0.001
    jsRound (basePrice * (1 + variation + seasonality + trend))
  let changePercent := historyChangePercent prices
  { dates := dates
    prices := prices
    trend := trendOfMock changePercent
    changePercent := changePercent.round100 }

/-- `fetchAGMARKNETPrices` of government-scraper.ts as a state transformer
on the cache.  Every failure branch (API disabled, missing key, network
error, non-ok response — the latter two via the surrounding `catch`)
returns the synthetic fallback **without** writing the cache; only a
successfully parsed response is cached. -/
def fetchAGMARKNETPrices (env : Env) (cache : Cache) (now : ℤ) (rng : ℤ → ℝ)
    (category : String) : List PriceData × Cache :=
  match getFromCache cache (cacheKey category) now with
  | some cached => (cached, cache)
  | none =>
    if env.agmarknetEnabled = false then (getFallbackPrices env rng category, cache)
    else
      match env.apiKey with
      | none => (getFallbackPrices env rng category, cache)
      | some _ =>
        match env.fetch with
        | .networkError => (getFallbackPrices env rng category, cache)
        | .httpError => (getFallbackPrices env rng category, cache)
        | .ok records =>
          let prices := parseAGMARKNETResponse env records category
          (prices, saveToCache cache (cacheKey category) prices now)

/-- `fetchPriceHistory` of government-scraper.ts.  Its own `try/catch` is
dead in this model because every branch of the body is total; the
`prices.length === 0` test selects the mock history. -/
def fetchPriceHistory (env : Env) (cache : Cache) (now : ℤ) (rng : ℤ → ℝ)
    (category : String) (days : ℤ) : PriceHistory × Cache :=
  let fetched := fetchAGMARKNETPrices env cache now rng category
  (if fetched.1.length = 0 then generateMockHistory env rng category days
   else buildHistory fetched.1 days, fetched.2)

/- ----------------------------------------------------------------------
   forecasting-model.ts
   ---------------------------------------------------------------------- -/

/-- The confidence label of a forecast point. -/
inductive Confidence where
  | low
  | medium
  | high
deriving DecidableEq, Inhabited

/-- One entry of `ForecastResult.predictions`. -/
structure Prediction where
  date : ℤ
  predictedPrice : ℝ
  confidence : Confidence
  lowerBound : ℝ
  upperBound : ℝ

/-- The slope/intercept pair returned by `calculateTrend`. -/
structure LinTrend where
  slope : ℝ
  intercept : ℝ

/-- `calculateTrend` of forecasting-model.ts: ordinary least squares of the
price against its index (the accumulation loop written as closed sums).
The denominator is zero only for series of length ≤ 1, which no caller
reaches (`forecastPrices` requires at least 7 points); Lean's `x / 0 = 0`
stands in for the JavaScript `NaN` on that dead branch. -/
def calculateTrend (prices : List ℝ) : LinTrend :=
  let n : ℝ := prices.length
  let sumX := ((List.range prices.length).map (fun i : ℕ => (i : ℝ))).sum
  let sumY := prices.sum
  let sumXY := (prices.enum.map (fun p => (p.1 : ℝ) * p.2)).sum
  let sumXX := ((List.range prices.length).map (fun i : ℕ => ((i : ℝ)) ^ 2)).sum
  let slope := (n * sumXY - sumX * sumY) / (n * sumXX - sumX * sumX)
  { slope := slope, intercept := (sumY - slope * sumX) / n }

open Classical in
/-- `calculateSeasonality` of forecasting-model.ts: one multiplicative
factor per weekly phase bucket, each bucket average normalised by the
overall mean (the bucket filter expresses the accumulation loop). -/
def calculateSeasonality (prices : List ℝ) : List ℝ :=
  let overallMean := prices.sum / (prices.length : ℝ)
  (List.range 7).map fun j =>
    let bucket := (prices.enum.filter (fun p => p.1 % 7 = j)).map (·.2)
    let avg := if bucket.length = 0 then overallMean else bucket.sum / (bucket.length : ℝ)
    avg / overallMean

/-- `calculateVolatility` of forecasting-model.ts: population standard
deviation of the price series. -/
def calculateVolatility (prices : List ℝ) : ℝ :=
  let mean := prices.sum / (prices.length : ℝ)
  Real.sqrt ((prices.map (fun p => (p - mean) ^ 2)).sum / (prices.length : ℝ))

open Classical in
/-- The body of the forecast loop of `generateForecasts` (lines 80-111) at
future offset `i`, with the preprocessed trend, seasonal factors and
volatility of the history. -/
def mkPrediction (today : ℤ) (n : ℕ) (tr : LinTrend) (seasonal : List ℝ)
    (volatility : ℝ) (i : ℤ) : Prediction :=
  let trendValue := tr.slope * ((n : ℝ) + (i : ℝ)) + tr.intercept
  let seasonalValue := seasonal.getD (((n : ℤ) + i) % (seasonal.length : ℤ)).toNat 0
  let predictedPrice := jsRound (trendValue * seasonalValue)
  let confidenceWidth := volatility * Real.sqrt (i : ℝ)
  { date := today + i
    predictedPrice := predictedPrice
    confidence := if 30 < i then .low else if 7 < i then .medium else .high
    lowerBound := max 0 (jsRound (predictedPrice - confidenceWidth))
    upperBound := jsRound (predictedPrice + confidenceWidth) }

/-- `generateForecasts` of forecasting-model.ts. -/
def generateForecasts (today : ℤ) (history : PriceHistory) (horizonDays : ℤ) :
    List Prediction :=
  let prices := history.prices
  (intRange1 horizonDays).map
    (mkPrediction today prices.length (calculateTrend prices)
      (calculateSeasonality prices) (calculateVolatility prices))

open Classical in
/-- `detectSeasonality` of forecasting-model.ts. -/
def detectSeasonality (prices : List ℝ) : String :=
  if prices.length < 30 then "Insufficient data for seasonality detection"
  else
    let mean := prices.sum / (prices.length : ℝ)
    let cv := calculateVolatility prices / mean
    if cv < 0.1 then "Low seasonality - stable prices"
    else if cv < 0.2 then "Moderate seasonality - some variation"
    else "High seasonality - significant variation"

/-- The insights of `generateInsights` / `fallbackForecast`, abstracted
from their English sentence text to which insight is emitted together
with the numeric data interpolated into it. -/
inductive Insight where
  | trendUp (changePercent : JsNum)
  | trendDown (changePercent : JsNum)
  | trendStable
  | stockUp
  | promote
  | festival (category : String)
  | basedOn (days : ℕ)
  | simulatedData
  | connectSources
  | considerLocal

/-- The `avgForecast` / `forecastChange` computation of `generateInsights`
lines 209-212: the sum of the first `min(7, length)` predicted prices is
divided by the constant 7 and compared against the current price. -/
def forecastChangeOf (predictions : List Prediction) (currentPrice : ℝ) : JsNum :=
  let avgForecast := ((predictions.take 7).map (·.predictedPrice)).sum / 7
  pctChange avgForecast currentPrice

open Classical in
/-- `generateInsights` of forecasting-model.ts. -/
def generateInsights (env : Env) (history : PriceHistory)
    (predictions : List Prediction) (category : String) : List Insight :=
  let first : List Insight :=
    match history.trend with
    | .up => [.trendUp history.changePercent]
    | .down => [.trendDown history.changePercent]
    | .stable => [.trendStable]
  let currentPrice := history.prices.getD (history.prices.length - 1) 0
  let forecastChange := forecastChangeOf predictions currentPrice
  let second : List Insight :=
    if forecastChange.gt 5 then [.stockUp]
    else if forecastChange.lt (-5) then [.promote]
    else []
  let third : List Insight := if env.month = 9 ∨ env.month = 10 then [.festival category] else []
  first ++ second ++ third ++ [.basedOn history.dates.length]

open Classical in
/-- The body of the fallback forecast loop of `fallbackForecast`
(lines 249-265) at future offset `i`. -/
def fallbackPoint (today : ℤ) (rng : ℤ → ℝ) (currentPrice : ℝ) (i : ℤ) : Prediction :=
  let trendFactor := 1 + (i : ℝ) * 0.001
  let noise := (rng i - 0.5) * 0.05
  let predictedPrice := jsRound (currentPrice * trendFactor * (1 + noise))
  { date := today + i
    predictedPrice := predictedPrice
    confidence := if i ≤ 7 then .medium else .low
    lowerBound := jsRound (predictedPrice * 0.9)
    upperBound := jsRound (predictedPrice * 1.1) }

/-- `ForecastResult` of forecasting-model.ts. -/
structure ForecastResult where
  predictions : List Prediction
  currentPrice : ℝ
  trend : Trend
  seasonality : String
  insights : List Insight

/-- `fallbackForecast` of forecasting-model.ts (its base-price table is
textually the `generateMockHistory` one). -/
def fallbackForecast (env : Env) (rng : ℤ → ℝ) (category : String)
    (horizonDays : ℤ) : ForecastResult :=
  let currentPrice := basePricesMock category
  { predictions := (intRange1 horizonDays).map (fallbackPoint env.today rng currentPrice)
    currentPrice := currentPrice
    trend := .stable
    seasonality := "Moderate"
    insights := [.simulatedData, .connectSources, .considerLocal] }

open Classical in
/-- `forecastPrices` of forecasting-model.ts: fetch a 90-day history, and
fall back to the synthetic forecast when the history holds fewer than 7
points (the `throw` inside the `try` lands in the local `catch`, which is
the only consumer of any exception — the function itself always returns a
`ForecastResult`). -/
def forecastPrices (env : Env) (cache : Cache) (now : ℤ) (rng : ℤ → ℝ)
    (category : String) (horizonDays : ℤ) : ForecastResult × Cache :=
  let fetched := fetchPriceHistory env cache now rng category 90
  let history := fetched.1
  (if history.prices.length < 7 then fallbackForecast env rng category horizonDays
   else
    let predictions := generateForecasts env.today history horizonDays
    { predictions := predictions
      currentPrice := history.prices.getD (history.prices.length - 1) 0
      trend := history.trend
      seasonality := detectSeasonality history.prices
      insights := generateInsights env history predictions category },
   fetched.2)

/-- The upstream-failure behaviours of the external price source that
short-circuit `fetchAGMARKNETPrices` to `getFallbackPrices`: integration
disabled, missing API key, rejected network call, or non-ok response. -/
def upstreamFails (env : Env) : Prop :=
  env.agmarknetEnabled = false ∨ env.apiKey = none ∨
    env.fetch = .networkError ∨ env.fetch = .httpError

/- ----------------------------------------------------------------------
   Concrete fixtures used by witnesses and counterexamples
   ---------------------------------------------------------------------- -/

/-- A constant random stream at the midpoint of `[0, 1)`; it makes every
uniform `(Math.random() - 0.5) * c` perturbation vanish. -/
def rngHalf : ℤ → ℝ := fun _ => 1/2

/-- A constant random stream at the bottom of `[0, 1)`. -/
def rngZero : ℤ → ℝ := fun _ => 0

/-- An environment with the AGMARKNET integration disabled. -/
def envDisabled : Env :=
  { agmarknetEnabled := false, apiKey := none, fetch := .networkError
    today := 0, month := 0 }

/-- An environment whose upstream responds ok with an empty record list
(the "malformed/empty payload" behaviour: `parseAGMARKNETResponse` yields
zero observations). -/
def envOkEmpty : Env :=
  { agmarknetEnabled := true, apiKey := some "key", fetch := .ok []
    today := 0, month := 0 }

/-- A raw upstream record with a given date and modal price and every
other field missing. -/
def mkRecord (d : ℤ) (modal : ℝ) : RawRecord :=
  { commodity := none, minPrice := none, maxPrice := none
    modalPrice := some modal, date := some d, market := none }

/-- Seven upstream records forming the steeply falling daily series
700, 600, …, 100. -/
def recordsFalling : List RawRecord :=
  [mkRecord 0 700, mkRecord 1 600, mkRecord 2 500, mkRecord 3 400,
   mkRecord 4 300, mkRecord 5 200, mkRecord 6 100]

/-- An environment whose upstream successfully returns `recordsFalling`. -/
def envFalling : Env :=
  { agmarknetEnabled := true, apiKey := some "key", fetch := .ok recordsFalling
    today := 0, month := 0 }

/-- Eight upstream records whose earliest seven modal prices are all zero
(`parseFloat(...) || 0` produces exactly this for unparseable prices). -/
def recordsZeroOld : List RawRecord :=
  [mkRecord 0 0, mkRecord 1 0, mkRecord 2 0, mkRecord 3 0,
   mkRecord 4 0, mkRecord 5 0, mkRecord 6 0, mkRecord 7 100]

/-- An environment whose upstream successfully returns `recordsZeroOld`. -/
def envZeroOld : Env :=
  { agmarknetEnabled := true, apiKey := some "key", fetch := .ok recordsZeroOld
    today := 0, month := 0 }

/-- An environment whose upstream successfully returns one record. -/
def envOneRecord : Env :=
  { agmarknetEnabled := true, apiKey := some "key", fetch := .ok [mkRecord 0 100]
    today := 0, month := 0 }

/-- The falling series 700, 600, …, 100 as a bare price list. -/
def pricesFalling : List ℝ := [700, 600, 500, 400, 300, 200, 100]

/-- A price history carrying the falling series, one point per day. -/
def histFalling : PriceHistory :=
  { dates := [0, 1, 2, 3, 4, 5, 6], prices := pricesFalling
    trend := .stable, changePercent := .finite 0 }

/-- A flat price history at 100, one point per day. -/
def histFlat : PriceHistory :=
  { dates := [0, 1, 2, 3, 4, 5, 6]
    prices := [100, 100, 100, 100, 100, 100, 100]
    trend := .stable, changePercent := .finite 0 }

/-- A one-point price history at 100. -/
def histOne : PriceHistory :=
  { dates := [0], prices := [100], trend := .stable, changePercent := .finite 0 }

/-- Three flat predictions at 100 (a 3-day forecast equal to the current
price). -/
def predsFlat : List Prediction :=
  [{ date := 1, predictedPrice := 100, confidence := .high
     lowerBound := 90, upperBound := 110 },
   { date := 2, predictedPrice := 100, confidence := .high
     lowerBound := 90, upperBound := 110 },
   { date := 3, predictedPrice := 100, confidence := .high
     lowerBound := 90, upperBound := 110 }]

/- ----------------------------------------------------------------------
   Helper lemmas
   ---------------------------------------------------------------------- -/

theorem jsRound_mono {x y : ℝ} (h : x ≤ y) : jsRound x ≤ jsRound y := by
  unfold jsRound
  exact_mod_cast Int.floor_le_floor (by linarith)

theorem jsRound_intCast (n : ℤ) : jsRound (n : ℝ) = (n : ℝ) := by
  have h0 : ⌊(1 : ℝ)/2⌋ = 0 := by
    rw [Int.floor_eq_zero_iff]
    constructor <;> norm_num
  have h : ⌊(n : ℝ) + 1/2⌋ = n := by
    rw [add_comm, Int.floor_add_int, h0, zero_add]
  unfold jsRound
  rw [h]

theorem jsRound_nonneg {x : ℝ} (h : 0 ≤ x) : 0 ≤ jsRound x := by
  have h0 : jsRound (0 : ℝ) = 0 := by simpa using jsRound_intCast 0
  have h2 := jsRound_mono h
  rw [h0] at h2
  exact h2

theorem jsRound_isInt (x : ℝ) : ∃ n : ℤ, jsRound x = (n : ℝ) := ⟨⌊x + 1/2⌋, rfl⟩

theorem jsRound_idem (x : ℝ) : jsRound (jsRound x) = jsRound x := by
  obtain ⟨n, hn⟩ := jsRound_isInt x
  rw [hn, jsRound_intCast]

theorem jsRound_eqR (n : ℤ) {x r : ℝ} (hr : (n : ℝ) = r)
    (h1 : (n : ℝ) ≤ x + 1/2) (h2 : x + 1/2 < (n : ℝ) + 1) : jsRound x = r := by
  rw [← hr]
  unfold jsRound
  have h : ⌊x + 1/2⌋ = n := by
    rw [Int.floor_eq_iff]
    · exact ⟨h1, h2⟩
  rw [h]

theorem jsRound_eq_int {x : ℝ} {n : ℤ} (h1 : (n : ℝ) ≤ x + 1/2)
    (h2 : x + 1/2 < (n : ℝ) + 1) : jsRound x = (n : ℝ) := by
  unfold jsRound
  have : ⌊x + 1/2⌋ = n := by
    rw [Int.floor_eq_iff]
    · exact ⟨h1, h2⟩
  exact_mod_cast congrArg (fun m : ℤ => (m : ℝ)) this

theorem intRange1_length (h : ℤ) : (intRange1 h).length = h.toNat := by
  unfold intRange1
  rw [List.length_map, List.length_range]

theorem mem_intRange1 {i h : ℤ} (hi : i ∈ intRange1 h) : 1 ≤ i ∧ i ≤ h := by
  simp only [intRange1, List.mem_map, List.mem_range] at hi
  obtain ⟨k, hk, rfl⟩ := hi
  constructor
  · omega
  · omega

theorem intRangeDown_length {d : ℤ} (h : 0 ≤ d) :
    (intRangeDown d).length = d.toNat + 1 := by
  unfold intRangeDown
  rw [if_neg (by omega), List.length_map, List.length_range]

theorem getFallbackPrices_length (env : Env) (rng : ℤ → ℝ) (c : String) :
    (getFallbackPrices env rng c).length = 30 := by
  simp [getFallbackPrices]

theorem insertByDate_length (x : PriceData) (l : List PriceData) :
    (insertByDate x l).length = l.length + 1 := by
  induction l with
  | nil => rfl
  | cons y ys ih =>
    unfold insertByDate
    by_cases h : y.date ≤ x.date <;> simp [h, ih]

theorem sortByDate_length (l : List PriceData) :
    (sortByDate l).length = l.length := by
  suffices h : ∀ acc : List PriceData,
      (l.foldl (fun acc x => insertByDate x acc) acc).length = l.length + acc.length by
    simpa using h []
  induction l with
  | nil => intro acc; simp
  | cons y ys ih =>
    intro acc
    simp only [List.foldl_cons, List.length_cons, ih, insertByDate_length]
    omega

theorem jsSliceNegArg_length_le {α : Type} (l : List α) {days : ℤ} (h : 1 ≤ days) :
    (jsSliceNegArg l days).length ≤ days.toNat := by
  unfold jsSliceNegArg
  rw [if_pos (by omega)]
  simp only [List.length_drop]
  omega

theorem buildHistory_lengths (prices : List PriceData) (days : ℤ) :
    (buildHistory prices days).dates.length = (buildHistory prices days).prices.length := by
  simp [buildHistory]

theorem generateMockHistory_lengths (env : Env) (rng : ℤ → ℝ) (c : String) (days : ℤ) :
    (generateMockHistory env rng c days).dates.length =
      (generateMockHistory env rng c days).prices.length := by
  simp [generateMockHistory]

theorem intRange1_eq_nil {h : ℤ} (hh : h ≤ 0) : intRange1 h = [] := by
  unfold intRange1
  rw [Int.toNat_of_nonpos hh]
  rfl

theorem fetchPriceHistory_lengths (env : Env) (cache : Cache) (now : ℤ)
    (rng : ℤ → ℝ) (category : String) (d : ℤ) :
    (fetchPriceHistory env cache now rng category d).1.dates.length =
      (fetchPriceHistory env cache now rng category d).1.prices.length := by
  unfold fetchPriceHistory
  by_cases h0 : (fetchAGMARKNETPrices env cache now rng category).1.length = 0 <;>
    simp [h0, buildHistory_lengths, generateMockHistory_lengths]

/- ----------------------------------------------------------------------
   Claims
   ---------------------------------------------------------------------- -/

/-- C2: for every input history and every horizon `h ≥ 1`, the forecast
loop produces exactly `h` predictions whose dates are the consecutive
calendar days `today + 1, …, today + h` (strictly increasing consecutive
days starting at tomorrow), on the primary path (`generateForecasts`) and
on the fallback path (`fallbackForecast`) alike. -/
theorem claim_c2 (env : Env) (rng : ℤ → ℝ) (today : ℤ) (history : PriceHistory)
    (category : String) (h : ℤ) (hh : 1 ≤ h) :
    (((generateForecasts today history h).length : ℤ) = h
      ∧ (generateForecasts today history h).map (·.date) =
          (intRange1 h).map (fun i => today + i))
    ∧ (((fallbackForecast env rng category h).predictions.length : ℤ) = h
      ∧ (fallbackForecast env rng category h).predictions.map (·.date) =
          (intRange1 h).map (fun i => env.today + i)) := by
  refine ⟨⟨?_, ?_⟩, ?_, ?_⟩
  · rw [generateForecasts, List.length_map, intRange1_length]
    omega
  · rw [generateForecasts, List.map_map]
    exact List.map_congr_left fun i _ => rfl
  · rw [fallbackForecast, List.length_map, intRange1_length]
    omega
  · rw [fallbackForecast, List.map_map]
    exact List.map_congr_left fun i _ => rfl

/-- Witness for C2 at horizon 3. -/
theorem claim_c2_witness :
    ((((generateForecasts 0 histFlat 3).length : ℤ) = 3
      ∧ (generateForecasts 0 histFlat 3).map (·.date) =
          (intRange1 3).map (fun i => (0 : ℤ) + i))
    ∧ (((fallbackForecast envDisabled rngHalf "spices" 3).predictions.length : ℤ) = 3
      ∧ (fallbackForecast envDisabled rngHalf "spices" 3).predictions.map (·.date) =
          (intRange1 3).map (fun i => envDisabled.today + i))) :=
  claim_c2 envDisabled rngHalf 0 histFlat "spices" 3 (by norm_num)

/-- C7 counterexample: a non-positive horizon is not rejected.  With the
horizon 0 the call completes normally, returning a `ForecastResult` whose
prediction list is empty — the model of `forecastPrices` is a total
function into `ForecastResult`, because every `throw` in the source lands
in the function's own `catch`, so no caller-visible error exists. -/
theorem claim_c7_cex :
    (forecastPrices envDisabled emptyCache 0 rngHalf "spices" 0).1.predictions = [] := by
  unfold forecastPrices
  by_cases hlen :
      (fetchPriceHistory envDisabled emptyCache 0 rngHalf "spices" 90).1.prices.length < 7 <;>
    simp [hlen, fallbackForecast, generateForecasts, intRange1]

/-- C7 amended: the forecasting core never surfaces an error, for
non-positive horizons included: `forecastPrices` returns a normal
`ForecastResult` with an empty prediction list whenever `h ≤ 0`, and
`fetchPriceHistory` returns a normal, structurally valid `PriceHistory`
for every day count (the source performs no argument validation at all). -/
theorem claim_c7 (env : Env) (cache : Cache) (now : ℤ) (rng : ℤ → ℝ)
    (category : String) (h d : ℤ) (hh : h ≤ 0) :
    (forecastPrices env cache now rng category h).1.predictions = []
    ∧ (fetchPriceHistory env cache now rng category d).1.dates.length =
        (fetchPriceHistory env cache now rng category d).1.prices.length := by
  constructor
  · unfold forecastPrices
    by_cases hlen :
        (fetchPriceHistory env cache now rng category 90).1.prices.length < 7 <;>
      simp [hlen, fallbackForecast, generateForecasts, intRange1_eq_nil hh]
  · exact fetchPriceHistory_lengths env cache now rng category d

/-- Witness for C7 at horizon 0 and day count -5. -/
theorem claim_c7_witness :
    (forecastPrices envOkEmpty emptyCache 0 rngHalf "pottery" 0).1.predictions = []
    ∧ (fetchPriceHistory envOkEmpty emptyCache 0 rngHalf "pottery" (-5)).1.dates.length =
        (fetchPriceHistory envOkEmpty emptyCache 0 rngHalf "pottery" (-5)).1.prices.length :=
  claim_c7 envOkEmpty emptyCache 0 rngHalf "pottery" 0 (-5) (by norm_num)

theorem forecastPrices_predictions_length (env : Env) (cache : Cache) (now : ℤ)
    (rng : ℤ → ℝ) (category : String) (h : ℤ) :
    (forecastPrices env cache now rng category h).1.predictions.length = h.toNat := by
  unfold forecastPrices
  by_cases hlen :
      (fetchPriceHistory env cache now rng category 90).1.prices.length < 7 <;>
    simp [hlen, fallbackForecast, generateForecasts, intRange1_length]

theorem fetchPriceHistory_of_upstreamFails (env : Env) (cache : Cache) (now : ℤ)
    (rng : ℤ → ℝ) (category : String) (days : ℤ) (hfail : upstreamFails env)
    (hmiss : getFromCache cache (cacheKey category) now = none) :
    fetchPriceHistory env cache now rng category days =
      (buildHistory (getFallbackPrices env rng category) days, cache) := by
  unfold fetchPriceHistory fetchAGMARKNETPrices
  rw [hmiss]
  rcases hfail with hf | hf | hf | hf
  · simp [hf, getFallbackPrices_length]
  · by_cases he : env.agmarknetEnabled = false <;>
      simp [he, hf, getFallbackPrices_length]
  · by_cases he : env.agmarknetEnabled = false
    · simp [he, getFallbackPrices_length]
    · cases hk : env.apiKey <;> simp [he, hk, hf, getFallbackPrices_length]
  · by_cases he : env.agmarknetEnabled = false
    · simp [he, getFallbackPrices_length]
    · cases hk : env.apiKey <;> simp [he, hk, hf, getFallbackPrices_length]

/-- C1: the pipeline is total and never lets an upstream failure escape.
For every behaviour of the external source, `fetchPriceHistory` returns a
structurally valid `PriceHistory` (parallel `dates`/`prices`), and
`forecastPrices` returns a `ForecastResult` with exactly `max h 0`
predictions; when the source fails (disabled, missing key, network error,
non-ok response) the result is exactly the synthetic fallback data path
`buildHistory (getFallbackPrices …)`, and when the source responds with a
payload parsing to zero observations the result is exactly the synthetic
mock history. -/
theorem claim_c1 (env : Env) (cache : Cache) (now : ℤ) (rng : ℤ → ℝ)
    (category : String) (days h : ℤ) :
    ((fetchPriceHistory env cache now rng category days).1.dates.length =
        (fetchPriceHistory env cache now rng category days).1.prices.length)
    ∧ ((forecastPrices env cache now rng category h).1.predictions.length = h.toNat)
    ∧ (upstreamFails env → getFromCache cache (cacheKey category) now = none →
        fetchPriceHistory env cache now rng category days =
          (buildHistory (getFallbackPrices env rng category) days, cache))
    ∧ (∀ records k, env.agmarknetEnabled = true → env.apiKey = some k →
        env.fetch = .ok records →
        parseAGMARKNETResponse env records category = [] →
        getFromCache cache (cacheKey category) now = none →
        (fetchPriceHistory env cache now rng category days).1 =
          generateMockHistory env rng category days) := by
  refine ⟨fetchPriceHistory_lengths env cache now rng category days,
    forecastPrices_predictions_length env cache now rng category h,
    fetchPriceHistory_of_upstreamFails env cache now rng category days, ?_⟩
  intro records k hen hkey hrec hparse hmiss
  unfold fetchPriceHistory fetchAGMARKNETPrices
  rw [hmiss]
  simp [hen, hkey, hrec, hparse]

/-- Witness for C1 for a disabled source (synthetic fallback path) and for
an ok-but-empty payload (synthetic mock path). -/
theorem claim_c1_witness :
    (fetchPriceHistory envDisabled emptyCache 0 rngHalf "spices" 90 =
      (buildHistory (getFallbackPrices envDisabled rngHalf "spices") 90, emptyCache))
    ∧ ((fetchPriceHistory envOkEmpty emptyCache 0 rngHalf "spices" 90).1 =
        generateMockHistory envOkEmpty rngHalf "spices" 90)
    ∧ (forecastPrices envDisabled emptyCache 0 rngHalf "spices" 30).1.predictions.length = 30 :=
  ⟨(claim_c1 envDisabled emptyCache 0 rngHalf "spices" 90 30).2.2.1 (Or.inl rfl) rfl,
   (claim_c1 envOkEmpty emptyCache 0 rngHalf "spices" 90 30).2.2.2 [] "key" rfl rfl rfl rfl rfl,
   (claim_c1 envDisabled emptyCache 0 rngHalf "spices" 90 30).2.1⟩

/-- C4 counterexample: on the synthetic-fallback path the generator does
not produce `days` points — its loop runs from `i = days` down to `i = 0`
inclusive, so asking for a 1-day history returns 2 points, which also
violates the claimed `length ≤ days` bound. -/
theorem claim_c4_cex :
    (fetchPriceHistory envOkEmpty emptyCache 0 rngHalf "spices" 1).1.dates.length = 2 := by
  unfold fetchPriceHistory fetchAGMARKNETPrices
  simp [getFromCache, emptyCache, envOkEmpty, parseAGMARKNETResponse,
    generateMockHistory, intRangeDown]

/-- C4 amended: for every `days ≥ 1` the history returned by
`fetchPriceHistory` has parallel `dates`/`prices` of length at most
`days + 1`; the upstream path keeps at most `days` observations, while
the synthetic-fallback path produces exactly `days + 1` daily points
ending today (one more than the claimed `days`). -/
theorem claim_c4 (env : Env) (cache : Cache) (now : ℤ) (rng : ℤ → ℝ)
    (category : String) (days : ℤ) (hd : 1 ≤ days) :
    ((generateMockHistory env rng category days).dates.length = days.toNat + 1
      ∧ (generateMockHistory env rng category days).dates.getLast? = some env.today)
    ∧ (∀ prices, (buildHistory prices days).dates.length ≤ days.toNat)
    ∧ (fetchPriceHistory env cache now rng category days).1.dates.length ≤ days.toNat + 1 := by
  have hmock : (generateMockHistory env rng category days).dates.length = days.toNat + 1 := by
    simp only [generateMockHistory, List.length_map]
    exact intRangeDown_length (by omega)
  have hbuild : ∀ prices, (buildHistory prices days).dates.length ≤ days.toNat := by
    intro prices
    simp only [buildHistory, List.length_map]
    exact jsSliceNegArg_length_le _ hd
  refine ⟨⟨hmock, ?_⟩, hbuild, ?_⟩
  · simp only [generateMockHistory, intRangeDown, if_neg (by omega : ¬ days < 0),
      List.map_map]
    rw [List.getLast?_map, List.range_succ, List.getLast?_concat]
    have heq : env.today - (days - (days.toNat : ℤ)) = env.today := by omega
    simpa using heq
  · unfold fetchPriceHistory
    by_cases h0 : (fetchAGMARKNETPrices env cache now rng category).1.length = 0
    · simp only [h0, if_true, reduceIte]
      rw [hmock]
    · simp only [h0, if_false, reduceIte]
      exact le_trans (hbuild _) (by omega)

theorem pctChange_self (x : ℝ) :
    pctChange x x = if x = 0 then JsNum.nan else JsNum.finite 0 := by
  unfold pctChange jsDiv
  by_cases hx : x = 0 <;> simp [hx, JsNum.mul100]

/-- C6: for every price series (shorter than 7 values included) the
`trend`/`changePercent` computed by the source — which divides both
window sums by the constant 7 — coincides with the spec's convention of
dividing each window sum by the number of values actually in the window:
when the series is shorter than 7 both windows are the whole series, so
both conventions yield the same (zero or `NaN`) relative change, and
otherwise both windows hold exactly 7 values. -/
theorem claim_c6 (priceValues : List ℝ) :
    historyChangePercent priceValues = historyChangePercentSpec priceValues
    ∧ trendOf (historyChangePercent priceValues) =
        trendOf (historyChangePercentSpec priceValues) := by
  suffices h : historyChangePercent priceValues = historyChangePercentSpec priceValues by
    exact ⟨h, congrArg trendOf h⟩
  rcases le_or_lt 7 priceValues.length with hn | hn
  · have h1 : (jsSliceLast7 priceValues).length = 7 := by
      simp only [jsSliceLast7, List.length_drop]
      omega
    have h2 : (priceValues.take 7).length = 7 := by
      simp only [List.length_take]
      omega
    unfold historyChangePercent historyChangePercentSpec
    dsimp only
    rw [h1, h2]
    norm_num
  · have h1 : jsSliceLast7 priceValues = priceValues := by
      unfold jsSliceLast7
      rw [Nat.sub_eq_zero_of_le (by omega), List.drop_zero]
    have h2 : priceValues.take 7 = priceValues := List.take_of_length_le (by omega)
    unfold historyChangePercent historyChangePercentSpec
    rw [h1, h2, pctChange_self, pctChange_self]
    by_cases hS : priceValues.sum = 0
    · rw [if_pos (by rw [hS]; norm_num), if_pos (by rw [hS]; norm_num)]
    · have hlen : priceValues.length ≠ 0 := by
        intro h0
        exact hS (by simp [List.length_eq_zero.mp h0])
      have h7 : priceValues.sum / 7 ≠ 0 := div_ne_zero hS (by norm_num)
      have hn0 : priceValues.sum / (priceValues.length : ℝ) ≠ 0 :=
        div_ne_zero hS (Nat.cast_ne_zero.mpr hlen)
      rw [if_neg h7, if_neg hn0]

/-- C10 (implicit behaviour of `generateInsights`): the near-term
forecast change divides the sum of the first `min(7, horizon)` predicted
prices by the constant 7, not by their count; with a 3-day flat forecast
equal to the positive current price `c` the computed change is
`(3c/7 - c)/c * 100 = -400/7 ≈ -57.1 %`, which is below the -5 %
threshold, so the price-decrease insight is always emitted. -/
theorem claim_c10 (c : ℝ) (hc : 0 < c) (preds : List Prediction)
    (hmap : preds.map (·.predictedPrice) = [c, c, c]) :
    forecastChangeOf preds c = .finite (-400/7)
    ∧ JsNum.lt (forecastChangeOf preds c) (-5)
    ∧ (∀ env hist cat, hist.prices.getD (hist.prices.length - 1) 0 = c →
        Insight.promote ∈ generateInsights env hist preds cat) := by
  have hsum : ((preds.take 7).map (·.predictedPrice)).sum = 3 * c := by
    rw [List.map_take, hmap, show ([c, c, c] : List ℝ).take 7 = [c, c, c] from rfl]
    simp
    ring
  have h1 : forecastChangeOf preds c = .finite (-400/7) := by
    unfold forecastChangeOf pctChange jsDiv
    rw [hsum]
    dsimp only
    rw [if_neg hc.ne']
    unfold JsNum.mul100
    field_simp
    ring
  have hgt : ¬ JsNum.gt (.finite ((-400 : ℝ)/7)) 5 := by
    unfold JsNum.gt
    norm_num
  have hlt : JsNum.lt (.finite ((-400 : ℝ)/7)) (-5) := by
    unfold JsNum.lt
    norm_num
  refine ⟨h1, by rw [h1]; exact hlt, ?_⟩
  intro env hist cat hcur
  simp only [generateInsights]
  rw [hcur, h1, if_neg hgt, if_pos hlt]
  simp

/-- Witness for C10 with three flat predictions at 100. -/
theorem claim_c10_witness :
    forecastChangeOf predsFlat 100 = .finite (-400/7)
    ∧ JsNum.lt (forecastChangeOf predsFlat 100) (-5)
    ∧ Insight.promote ∈ generateInsights envDisabled histOne predsFlat "spices" := by
  have h := claim_c10 100 (by norm_num) predsFlat (by simp [predsFlat])
  exact ⟨h.1, h.2.1, h.2.2 envDisabled histOne "spices" (by simp [histOne])⟩

theorem jsRound_zero : jsRound (0 : ℝ) = 0 := by
  simpa using jsRound_intCast 0

/-- C5 (evaluation at the failing input): eight upstream records whose
earliest seven modal prices are 0 drive the `oldAvg` of
`fetchPriceHistory` to 0; the unguarded `((recentAvg - oldAvg) / oldAvg)
* 100` then divides by zero, so the returned history carries
`changePercent = Infinity` and `trend = 'up'` instead of the claimed
0 / 'stable'. -/
theorem claim_c5_bug :
    (fetchPriceHistory envZeroOld emptyCache 0 rngHalf "spices" 90).1.changePercent =
        JsNum.posInf
    ∧ (fetchPriceHistory envZeroOld emptyCache 0 rngHalf "spices" 90).1.trend = Trend.up := by
  have hstep : (fetchPriceHistory envZeroOld emptyCache 0 rngHalf "spices" 90).1 =
      buildHistory (parseAGMARKNETResponse envZeroOld recordsZeroOld "spices") 90 := by
    unfold fetchPriceHistory fetchAGMARKNETPrices
    simp [getFromCache, emptyCache, envZeroOld, parseAGMARKNETResponse, recordsZeroOld]
  rw [hstep]
  have hcp : historyChangePercent
      ((jsSliceNegArg (sortByDate
        (parseAGMARKNETResponse envZeroOld recordsZeroOld "spices")) 90).map
          (·.modalPrice)) = JsNum.posInf := by
    norm_num [parseAGMARKNETResponse, recordsZeroOld, mkRecord, envZeroOld, sortByDate,
      insertByDate, jsSliceNegArg, jsSliceLast7, historyChangePercent, pctChange, jsDiv,
      JsNum.mul100]
  constructor
  · show (historyChangePercent _).round100 = JsNum.posInf
    rw [hcp]
    rfl
  · show trendOf (historyChangePercent _) = Trend.up
    rw [hcp]
    unfold trendOf
    rw [if_neg (by simp [JsNum.lt]), if_pos (by simp [JsNum.gt])]

theorem fetchAGMARKNETPrices_disabled (cache : Cache) (now : ℤ) (rng : ℤ → ℝ)
    (category : String)
    (hmiss : getFromCache cache (cacheKey category) now = none) :
    fetchAGMARKNETPrices envDisabled cache now rng category =
      (getFallbackPrices envDisabled rng category, cache) := by
  unfold fetchAGMARKNETPrices
  rw [hmiss]
  simp [envDisabled]

theorem getFallbackPrices_head (env : Env) (rng : ℤ → ℝ) (c : String) :
    ((getFallbackPrices env rng c).map (·.modalPrice))[0]? =
      some (jsRound (basePricesScraper c * (1 + (rng 0 - 0.5) * 0.2))) := by
  unfold getFallbackPrices
  dsimp only
  rw [List.map_map]
  rw [List.getElem?_map, List.getElem?_range (by norm_num : (0 : ℕ) < 30)]
  simp only [Option.map_some']
  norm_num [Real.sin_zero]

/-- C8 counterexample: with the source disabled, the fallback payload is
never written to the cache, so a second `fetchAGMARKNETPrices` call for
the same category one millisecond later (well inside the 1-hour TTL)
re-randomizes: with the ambient random stream at 0.5 for the first call
and at 0 for the second, the first observation's modal price is 500
versus 450, so the two payloads are not identical. -/
theorem claim_c8_cex :
    (((fetchAGMARKNETPrices envDisabled emptyCache 0 rngHalf "handicrafts").1.map
        (·.modalPrice))[0]? = some 500)
    ∧ (((fetchAGMARKNETPrices envDisabled
          (fetchAGMARKNETPrices envDisabled emptyCache 0 rngHalf "handicrafts").2
          1 rngZero "handicrafts").1.map (·.modalPrice))[0]? = some 450)
    ∧ (fetchAGMARKNETPrices envDisabled
          (fetchAGMARKNETPrices envDisabled emptyCache 0 rngHalf "handicrafts").2
          1 rngZero "handicrafts").1 ≠
        (fetchAGMARKNETPrices envDisabled emptyCache 0 rngHalf "handicrafts").1 := by
  have h1 : fetchAGMARKNETPrices envDisabled emptyCache 0 rngHalf "handicrafts" =
      (getFallbackPrices envDisabled rngHalf "handicrafts", emptyCache) :=
    fetchAGMARKNETPrices_disabled emptyCache 0 rngHalf "handicrafts" rfl
  have h2 : fetchAGMARKNETPrices envDisabled emptyCache 1 rngZero "handicrafts" =
      (getFallbackPrices envDisabled rngZero "handicrafts", emptyCache) :=
    fetchAGMARKNETPrices_disabled emptyCache 1 rngZero "handicrafts" rfl
  have hbase : basePricesScraper "handicrafts" = 500 := by
    have h : jsToLower "handicrafts" = "handicrafts" := by decide
    unfold basePricesScraper
    rw [h]
    rfl
  have ha : ((fetchAGMARKNETPrices envDisabled emptyCache 0 rngHalf
      "handicrafts").1.map (·.modalPrice))[0]? = some 500 := by
    rw [h1, getFallbackPrices_head]
    have harg : basePricesScraper "handicrafts" * (1 + (rngHalf 0 - 0.5) * 0.2) = 500 := by
      rw [hbase]
      norm_num [rngHalf]
    rw [harg]
    have hj : jsRound (500 : ℝ) = 500 :=
      jsRound_eqR 500 (by norm_num) (by norm_num) (by norm_num)
    rw [hj]
  have hb : ((fetchAGMARKNETPrices envDisabled
      (fetchAGMARKNETPrices envDisabled emptyCache 0 rngHalf "handicrafts").2
      1 rngZero "handicrafts").1.map (·.modalPrice))[0]? = some 450 := by
    rw [h1, h2, getFallbackPrices_head]
    have harg : basePricesScraper "handicrafts" * (1 + (rngZero 0 - 0.5) * 0.2) = 450 := by
      rw [hbase]
      norm_num [rngZero]
    rw [harg]
    have hj : jsRound (450 : ℝ) = 450 :=
      jsRound_eqR 450 (by norm_num) (by norm_num) (by norm_num)
    rw [hj]
  refine ⟨ha, hb, fun heq => ?_⟩
  rw [heq, ha] at hb
  norm_num at hb

/-- C8 amended: the warm-cache idempotence holds for data obtained from a
successful upstream fetch — only the API success path writes the cache.
If a first call misses the cache and parses a non-empty payload, then any
second call for the same category within the 1-hour TTL (whatever its
environment and random stream) returns the identical cached raw payload
and the identical history; fallback/synthetic data, by contrast, is never
cached (see the counterexample). -/
theorem claim_c8 (env env2 : Env) (cache : Cache) (t1 t2 : ℤ) (rng1 rng2 : ℤ → ℝ)
    (category k : String) (records : List RawRecord) (days : ℤ)
    (hen : env.agmarknetEnabled = true) (hkey : env.apiKey = some k)
    (hrec : env.fetch = .ok records)
    (hmiss : getFromCache cache (cacheKey category) t1 = none)
    (httl : t2 - t1 < cacheExpiry)
    (hne : parseAGMARKNETResponse env records category ≠ []) :
    fetchAGMARKNETPrices env2 (fetchAGMARKNETPrices env cache t1 rng1 category).2
        t2 rng2 category =
      ((fetchAGMARKNETPrices env cache t1 rng1 category).1,
        (fetchAGMARKNETPrices env cache t1 rng1 category).2)
    ∧ (fetchPriceHistory env2 (fetchPriceHistory env cache t1 rng1 category days).2
          t2 rng2 category days).1 =
        (fetchPriceHistory env cache t1 rng1 category days).1 := by
  have hcall1 : fetchAGMARKNETPrices env cache t1 rng1 category =
      (parseAGMARKNETResponse env records category,
        saveToCache cache (cacheKey category)
          (parseAGMARKNETResponse env records category) t1) := by
    unfold fetchAGMARKNETPrices
    rw [hmiss]
    simp [hen, hkey, hrec]
  have hhit : getFromCache (saveToCache cache (cacheKey category)
      (parseAGMARKNETResponse env records category) t1) (cacheKey category) t2 =
      some (parseAGMARKNETResponse env records category) := by
    unfold getFromCache saveToCache
    simp [httl]
  have hcall2 : fetchAGMARKNETPrices env2 (fetchAGMARKNETPrices env cache t1 rng1 category).2
      t2 rng2 category =
      ((fetchAGMARKNETPrices env cache t1 rng1 category).1,
        (fetchAGMARKNETPrices env cache t1 rng1 category).2) := by
    rw [hcall1]
    unfold fetchAGMARKNETPrices
    rw [hhit]
  refine ⟨hcall2, ?_⟩
  unfold fetchPriceHistory
  rw [hcall2, hcall1]
  dsimp only
  have hlen : (parseAGMARKNETResponse env records category).length ≠ 0 := by
    simpa [List.length_eq_zero] using hne
  rw [if_neg hlen, if_neg hlen]

/-- Witness for C8 with a one-record payload cached at time 0 and re-read
at time 1. -/
theorem claim_c8_witness :
    fetchAGMARKNETPrices envOneRecord
        (fetchAGMARKNETPrices envOneRecord emptyCache 0 rngHalf "spices").2
        1 rngZero "spices" =
      ((fetchAGMARKNETPrices envOneRecord emptyCache 0 rngHalf "spices").1,
        (fetchAGMARKNETPrices envOneRecord emptyCache 0 rngHalf "spices").2)
    ∧ (fetchPriceHistory envOneRecord
          (fetchPriceHistory envOneRecord emptyCache 0 rngHalf "spices" 90).2
          1 rngZero "spices" 90).1 =
        (fetchPriceHistory envOneRecord emptyCache 0 rngHalf "spices" 90).1 :=
  claim_c8 envOneRecord envOneRecord emptyCache 0 1 rngHalf rngZero "spices" "key"
    [mkRecord 0 100] 90 rfl rfl rfl rfl (by norm_num [cacheExpiry])
    (by simp [parseAGMARKNETResponse])

theorem mkPrediction_eval (today : ℤ) (n : ℕ) (tr : LinTrend) (seasonal : List ℝ)
    (vol : ℝ) (i : ℤ) (pp w lb ub : ℝ) (cf : Confidence)
    (hpp : jsRound ((tr.slope * ((n : ℝ) + (i : ℝ)) + tr.intercept) *
      seasonal.getD (((n : ℤ) + i) % (seasonal.length : ℤ)).toNat 0) = pp)
    (hw : vol * Real.sqrt (i : ℝ) = w)
    (hlb : max 0 (jsRound (pp - w)) = lb)
    (hub : jsRound (pp + w) = ub)
    (hcf : (if 30 < i then Confidence.low else if 7 < i then .medium else .high) = cf) :
    mkPrediction today n tr seasonal vol i =
      { date := today + i, predictedPrice := pp, confidence := cf
        lowerBound := lb, upperBound := ub } := by
  unfold mkPrediction
  dsimp only
  rw [hpp, hw, hlb, hub, hcf]

theorem calculateVolatility_nonneg (prices : List ℝ) :
    0 ≤ calculateVolatility prices := by
  unfold calculateVolatility
  exact Real.sqrt_nonneg _

theorem basePricesMock_pos (category : String) : 0 < basePricesMock category := by
  unfold basePricesMock
  split <;> norm_num

theorem mkPrediction_bounds (today : ℤ) (n : ℕ) (tr : LinTrend) (seasonal : List ℝ)
    (vol : ℝ) (i : ℤ) (hvol : 0 ≤ vol)
    (hpp : 0 ≤ (mkPrediction today n tr seasonal vol i).predictedPrice) :
    0 ≤ (mkPrediction today n tr seasonal vol i).lowerBound
    ∧ (mkPrediction today n tr seasonal vol i).lowerBound ≤
        (mkPrediction today n tr seasonal vol i).predictedPrice
    ∧ (mkPrediction today n tr seasonal vol i).predictedPrice ≤
        (mkPrediction today n tr seasonal vol i).upperBound
    ∧ 0 ≤ (mkPrediction today n tr seasonal vol i).upperBound := by
  unfold mkPrediction at *
  dsimp only at *
  have hw : 0 ≤ vol * Real.sqrt (i : ℝ) := mul_nonneg hvol (Real.sqrt_nonneg _)
  obtain ⟨m, hm⟩ := jsRound_isInt ((tr.slope * ((n : ℝ) + (i : ℝ)) + tr.intercept) *
    seasonal.getD (((n : ℤ) + i) % (seasonal.length : ℤ)).toNat 0)
  rw [hm] at hpp ⊢
  have hfix : jsRound ((m : ℝ)) = (m : ℝ) := jsRound_intCast m
  have hle : jsRound ((m : ℝ) - vol * Real.sqrt (i : ℝ)) ≤ (m : ℝ) := by
    calc jsRound ((m : ℝ) - vol * Real.sqrt (i : ℝ)) ≤ jsRound ((m : ℝ)) :=
          jsRound_mono (by linarith)
    _ = (m : ℝ) := hfix
  have hge : (m : ℝ) ≤ jsRound ((m : ℝ) + vol * Real.sqrt (i : ℝ)) := by
    calc (m : ℝ) = jsRound ((m : ℝ)) := hfix.symm
    _ ≤ jsRound ((m : ℝ) + vol * Real.sqrt (i : ℝ)) := jsRound_mono (by linarith)
  exact ⟨le_max_left 0 _, max_le hpp hle, hge, le_trans hpp hge⟩

theorem fallbackPoint_bounds (today : ℤ) (rng : ℤ → ℝ) (c : ℝ) (i : ℤ)
    (hc : 0 < c) (hi : 1 ≤ i) (hr : 0 ≤ rng i ∧ rng i < 1) :
    0 ≤ (fallbackPoint today rng c i).predictedPrice
    ∧ 0 ≤ (fallbackPoint today rng c i).lowerBound
    ∧ (fallbackPoint today rng c i).lowerBound ≤
        (fallbackPoint today rng c i).predictedPrice
    ∧ (fallbackPoint today rng c i).predictedPrice ≤
        (fallbackPoint today rng c i).upperBound
    ∧ 0 ≤ (fallbackPoint today rng c i).upperBound := by
  unfold fallbackPoint
  dsimp only
  have hi' : (1 : ℝ) ≤ (i : ℝ) := by exact_mod_cast hi
  have harg : 0 ≤ c * (1 + (i : ℝ) * 0.001) * (1 + (rng i - 0.5) * 0.05) := by
    have h1 : (0 : ℝ) < 1 + (i : ℝ) * 0.001 := by nlinarith
    have h2 : (0 : ℝ) < 1 + (rng i - 0.5) * 0.05 := by nlinarith [hr.1, hr.2]
    positivity
  obtain ⟨m, hm⟩ := jsRound_isInt (c * (1 + (i : ℝ) * 0.001) * (1 + (rng i - 0.5) * 0.05))
  have hpp : 0 ≤ ((m : ℝ)) := by
    rw [← hm]
    exact jsRound_nonneg harg
  rw [hm]
  have hfix : jsRound ((m : ℝ)) = (m : ℝ) := jsRound_intCast m
  have hlow : jsRound ((m : ℝ) * 0.9) ≤ (m : ℝ) := by
    calc jsRound ((m : ℝ) * 0.9) ≤ jsRound ((m : ℝ)) := jsRound_mono (by nlinarith)
    _ = (m : ℝ) := hfix
  have hhigh : (m : ℝ) ≤ jsRound ((m : ℝ) * 1.1) := by
    calc (m : ℝ) = jsRound ((m : ℝ)) := hfix.symm
    _ ≤ jsRound ((m : ℝ) * 1.1) := jsRound_mono (by nlinarith)
  exact ⟨hpp, jsRound_nonneg (by nlinarith), hlow, hhigh, le_trans hpp hhigh⟩

theorem trend_falling : calculateTrend pricesFalling = ⟨-100, 700⟩ := by
  norm_num [calculateTrend, pricesFalling, List.enum, List.enumFrom, List.range_succ,
    LinTrend.mk.injEq]

theorem seas_falling :
    calculateSeasonality pricesFalling = [7/4, 3/2, 5/4, 1, 3/4, 1/2, 1/4] := by
  norm_num [calculateSeasonality, pricesFalling, List.enum, List.enumFrom,
    List.range_succ, List.filter]

theorem vol_falling : calculateVolatility pricesFalling = 200 := by
  have h : ((pricesFalling.map
      (fun p => (p - pricesFalling.sum / (pricesFalling.length : ℝ)) ^ 2)).sum /
        (pricesFalling.length : ℝ)) = 40000 := by
    norm_num [pricesFalling]
  rw [calculateVolatility, h]
  rw [show (40000 : ℝ) = 200 ^ 2 by norm_num, Real.sqrt_sq (by norm_num)]

theorem mkPred_falling_1 :
    mkPrediction 0 7 (calculateTrend pricesFalling) (calculateSeasonality pricesFalling)
      (calculateVolatility pricesFalling) 1 =
      { date := 1, predictedPrice := -150, confidence := .high
        lowerBound := 0, upperBound := 50 } := by
  rw [trend_falling, seas_falling, vol_falling]
  have h0 : (0 : ℤ) + 1 = 1 := by norm_num
  refine Eq.trans (mkPrediction_eval 0 7 _ _ _ 1 (-150) 200 0 50 .high ?_ ?_ ?_ ?_ ?_) ?_
  · have harg : (((⟨-100, 700⟩ : LinTrend).slope * (((7 : ℕ) : ℝ) + ((1 : ℤ) : ℝ)) +
        (⟨-100, 700⟩ : LinTrend).intercept) *
          ([7/4, 3/2, 5/4, 1, 3/4, 1/2, 1/4] : List ℝ).getD
            ((((7 : ℕ) : ℤ) + 1) % (([7/4, 3/2, 5/4, 1, 3/4, 1/2, 1/4] : List ℝ).length
              : ℤ)).toNat 0) = -150 := by
      norm_num [List.getD]
    rw [harg]
    exact jsRound_eqR (-150) (by norm_num) (by norm_num) (by norm_num)
  · rw [show (((1 : ℤ) : ℝ)) = 1 by norm_num, Real.sqrt_one]
    norm_num
  · have hj : jsRound ((-350) : ℝ) = -350 :=
      jsRound_eqR (-350) (by norm_num) (by norm_num) (by norm_num)
    rw [show ((-150 : ℝ) - 200) = -350 by norm_num, hj,
      max_eq_left (by norm_num : (-350 : ℝ) ≤ 0)]
  · rw [show ((-150 : ℝ) + 200) = 50 by norm_num]
    exact jsRound_eqR 50 (by norm_num) (by norm_num) (by norm_num)
  · norm_num
  · rw [h0]

theorem mkPred_falling_9 :
    mkPrediction 0 7 (calculateTrend pricesFalling) (calculateSeasonality pricesFalling)
      (calculateVolatility pricesFalling) 9 =
      { date := 9, predictedPrice := -1125, confidence := .medium
        lowerBound := 0, upperBound := -525 } := by
  rw [trend_falling, seas_falling, vol_falling]
  have h0 : (0 : ℤ) + 9 = 9 := by norm_num
  refine Eq.trans (mkPrediction_eval 0 7 _ _ _ 9 (-1125) 600 0 (-525) .medium
    ?_ ?_ ?_ ?_ ?_) ?_
  · have harg : (((⟨-100, 700⟩ : LinTrend).slope * (((7 : ℕ) : ℝ) + ((9 : ℤ) : ℝ)) +
        (⟨-100, 700⟩ : LinTrend).intercept) *
          ([7/4, 3/2, 5/4, 1, 3/4, 1/2, 1/4] : List ℝ).getD
            ((((7 : ℕ) : ℤ) + 9) % (([7/4, 3/2, 5/4, 1, 3/4, 1/2, 1/4] : List ℝ).length
              : ℤ)).toNat 0) = -1125 := by
      norm_num [List.getD, show Int.toNat 2 = 2 from rfl]
    rw [harg]
    exact jsRound_eqR (-1125) (by norm_num) (by norm_num) (by norm_num)
  · rw [show (((9 : ℤ) : ℝ)) = 9 by norm_num,
      show (9 : ℝ) = 3 ^ 2 by norm_num, Real.sqrt_sq (by norm_num)]
    norm_num
  · have hj : jsRound ((-1725) : ℝ) = -1725 :=
      jsRound_eqR (-1725) (by norm_num) (by norm_num) (by norm_num)
    rw [show ((-1125 : ℝ) - 600) = -1725 by norm_num, hj,
      max_eq_left (by norm_num : (-1725 : ℝ) ≤ 0)]
  · rw [show ((-1125 : ℝ) + 600) = -525 by norm_num]
    exact jsRound_eqR (-525) (by norm_num) (by norm_num) (by norm_num)
  · norm_num
  · rw [h0]

theorem hist_falling_eval :
    (fetchPriceHistory envFalling emptyCache 0 rngHalf "textiles" 90).1 = histFalling := by
  have hstep : (fetchPriceHistory envFalling emptyCache 0 rngHalf "textiles" 90).1 =
      buildHistory (parseAGMARKNETResponse envFalling recordsFalling "textiles") 90 := by
    unfold fetchPriceHistory fetchAGMARKNETPrices
    simp [getFromCache, emptyCache, envFalling, parseAGMARKNETResponse, recordsFalling]
  rw [hstep]
  norm_num [buildHistory, parseAGMARKNETResponse, recordsFalling, mkRecord, envFalling,
    sortByDate, insertByDate, jsSliceNegArg, jsSliceLast7, historyChangePercent, pctChange,
    jsDiv, JsNum.mul100, JsNum.round100, trendOf, JsNum.lt, JsNum.gt, jsRound_zero,
    histFalling, pricesFalling, PriceHistory.mk.injEq]

theorem forecast_falling_preds :
    (forecastPrices envFalling emptyCache 0 rngHalf "textiles" 30).1.predictions =
      generateForecasts 0 histFalling 30 := by
  unfold forecastPrices
  dsimp only
  rw [hist_falling_eval]
  rw [if_neg (by norm_num [histFalling, pricesFalling] : ¬ histFalling.prices.length < 7)]
  rfl

theorem generateForecasts_getElem (today : ℤ) (hist : PriceHistory) (h : ℤ) (k : ℕ)
    (hk : k < h.toNat) :
    (generateForecasts today hist h)[k]? =
      some (mkPrediction today hist.prices.length (calculateTrend hist.prices)
        (calculateSeasonality hist.prices) (calculateVolatility hist.prices)
        ((k : ℤ) + 1)) := by
  unfold generateForecasts intRange1
  dsimp only
  rw [List.getElem?_map, List.getElem?_map, List.getElem?_range hk]
  rfl

/-- C3 counterexample: run through the whole pipeline on a successfully
fetched, steeply falling 7-point series (700 … 100).  The least-squares
slope is -100, so already at offset 1 the extrapolated trend value is
negative: the first prediction is `predictedPrice = -150` with
`lowerBound = 0`, violating both `predictedPrice ≥ 0` and
`lowerBound ≤ predictedPrice`. -/
theorem claim_c3_cex :
    ¬ (∀ p ∈ (forecastPrices envFalling emptyCache 0 rngHalf "textiles" 30).1.predictions,
        0 ≤ p.predictedPrice ∧ p.lowerBound ≤ p.predictedPrice) := by
  intro hall
  have e0 : (generateForecasts 0 histFalling 30)[0]? =
      some (mkPrediction 0 7 (calculateTrend pricesFalling)
        (calculateSeasonality pricesFalling) (calculateVolatility pricesFalling) 1) := by
    rw [generateForecasts_getElem 0 histFalling 30 0 (by norm_num)]
    norm_num [histFalling, pricesFalling]
  have hmem : (mkPrediction 0 7 (calculateTrend pricesFalling)
      (calculateSeasonality pricesFalling) (calculateVolatility pricesFalling) 1) ∈
      (forecastPrices envFalling emptyCache 0 rngHalf "textiles" 30).1.predictions := by
    rw [forecast_falling_preds]
    exact List.getElem?_mem e0
  have hcontra := hall _ hmem
  rw [mkPred_falling_1] at hcontra
  norm_num at hcontra

/-- C3 amended: every prediction whose (rounded) `predictedPrice` is
non-negative satisfies `0 ≤ lowerBound ≤ predictedPrice ≤ upperBound`, on
the primary path; on the fallback path the predicted price is always
non-negative (for random draws in `[0, 1)`), so all the bounds hold
unconditionally there.  The original claim fails only when the
extrapolated trend drives `predictedPrice` negative (see the
counterexample). -/
theorem claim_c3 (today : ℤ) (history : PriceHistory) (h : ℤ) (env : Env)
    (rng : ℤ → ℝ) (category : String) (p : Prediction) :
    (p ∈ generateForecasts today history h → 0 ≤ p.predictedPrice →
      0 ≤ p.lowerBound ∧ p.lowerBound ≤ p.predictedPrice ∧
        p.predictedPrice ≤ p.upperBound ∧ 0 ≤ p.upperBound)
    ∧ ((∀ j, 0 ≤ rng j ∧ rng j < 1) →
        p ∈ (fallbackForecast env rng category h).predictions →
        0 ≤ p.predictedPrice ∧ 0 ≤ p.lowerBound ∧ p.lowerBound ≤ p.predictedPrice ∧
          p.predictedPrice ≤ p.upperBound ∧ 0 ≤ p.upperBound) := by
  constructor
  · intro hmem hpp
    unfold generateForecasts at hmem
    rw [List.mem_map] at hmem
    obtain ⟨i, hi, rfl⟩ := hmem
    exact mkPrediction_bounds _ _ _ _ _ _ (calculateVolatility_nonneg _) hpp
  · intro hr hmem
    unfold fallbackForecast at hmem
    dsimp only at hmem
    rw [List.mem_map] at hmem
    obtain ⟨i, hi, rfl⟩ := hmem
    exact fallbackPoint_bounds _ _ _ _ (basePricesMock_pos _) (mem_intRange1 hi).1 (hr i)

/-- Witness for C3 on the fallback path with the midpoint random
stream. -/
theorem claim_c3_witness :
    0 ≤ (fallbackPoint 0 rngHalf (basePricesMock "spices") 1).predictedPrice
    ∧ 0 ≤ (fallbackPoint 0 rngHalf (basePricesMock "spices") 1).lowerBound
    ∧ (fallbackPoint 0 rngHalf (basePricesMock "spices") 1).lowerBound ≤
        (fallbackPoint 0 rngHalf (basePricesMock "spices") 1).predictedPrice
    ∧ (fallbackPoint 0 rngHalf (basePricesMock "spices") 1).predictedPrice ≤
        (fallbackPoint 0 rngHalf (basePricesMock "spices") 1).upperBound
    ∧ 0 ≤ (fallbackPoint 0 rngHalf (basePricesMock "spices") 1).upperBound :=
  (claim_c3 0 histFlat 1 envDisabled rngHalf "spices"
      (fallbackPoint 0 rngHalf (basePricesMock "spices") 1)).2
    (fun j => by norm_num [rngHalf])
    (by simp [fallbackForecast, intRange1, envDisabled])

/-- C9 counterexample: on the falling 7-point series with horizon 9, the
rounded-and-clamped interval width at offset 1 is `50 - 0 = 50` while at
offset 9 it is `-525 - 0 = -525`: the width decreases (and even goes
negative, with `upperBound < lowerBound`), because the predicted price
has gone negative while `lowerBound` is clamped at 0. -/
theorem claim_c9_cex :
    ((generateForecasts 0 histFalling 9)[0]?.map
        (fun p => p.upperBound - p.lowerBound) = some (50 : ℝ))
    ∧ ((generateForecasts 0 histFalling 9)[8]?.map
        (fun p => p.upperBound - p.lowerBound) = some ((-525 : ℝ)))
    ∧ ¬ ((50 : ℝ) ≤ -525) := by
  have e0 : (generateForecasts 0 histFalling 9)[0]? =
      some (mkPrediction 0 7 (calculateTrend pricesFalling)
        (calculateSeasonality pricesFalling) (calculateVolatility pricesFalling) 1) := by
    rw [generateForecasts_getElem 0 histFalling 9 0 (by norm_num)]
    norm_num [histFalling, pricesFalling]
  have e8 : (generateForecasts 0 histFalling 9)[8]? =
      some (mkPrediction 0 7 (calculateTrend pricesFalling)
        (calculateSeasonality pricesFalling) (calculateVolatility pricesFalling) 9) := by
    rw [generateForecasts_getElem 0 histFalling 9 8 (by norm_num)]
    norm_num [histFalling, pricesFalling]
  refine ⟨?_, ?_, by norm_num⟩
  · rw [e0, mkPred_falling_1]
    norm_num
  · rw [e8, mkPred_falling_9]
    norm_num

/-- C9 amended: the pre-rounding confidence width
`volatility * sqrt(i)` is non-decreasing in the offset `i`; the claimed
monotonicity does not survive the rounding of the bounds and the
clamping of `lowerBound` at 0 (see the counterexample, where the width
even becomes negative). -/
theorem claim_c9 (prices : List ℝ) (i j : ℤ) (hij : i ≤ j) :
    calculateVolatility prices * Real.sqrt (i : ℝ) ≤
      calculateVolatility prices * Real.sqrt (j : ℝ) :=
  mul_le_mul_of_nonneg_left (Real.sqrt_le_sqrt (by exact_mod_cast hij))
    (calculateVolatility_nonneg prices)

/-- Witness for C9 at offsets 1 and 2 on the falling series. -/
theorem claim_c9_witness :
    calculateVolatility pricesFalling * Real.sqrt ((1 : ℤ) : ℝ) ≤
      calculateVolatility pricesFalling * Real.sqrt ((2 : ℤ) : ℝ) :=
  claim_c9 pricesFalling 1 2 (by norm_num)

/-- Witness for C4 at `days = 1`. -/
theorem claim_c4_witness :
    (((generateMockHistory envOkEmpty rngHalf "spices" 1).dates.length = 2
      ∧ (generateMockHistory envOkEmpty rngHalf "spices" 1).dates.getLast? =
          some envOkEmpty.today)
    ∧ (∀ prices, (buildHistory prices 1).dates.length ≤ 1)
    ∧ (fetchPriceHistory envOkEmpty emptyCache 0 rngHalf "spices" 1).1.dates.length ≤ 2) :=
  claim_c4 envOkEmpty emptyCache 0 rngHalf "spices" 1 (by norm_num)

end
